import Mathlib

/-!
Verification of the tengo scripting runtime against its specification.

The development shallow-embeds two layers of the repository:

* the `objects` package's type-check builtin functions
  (`src/objects/builtin_type_checks.go`), translated directly from the Go
  source; and
* the script/compiler/VM pipeline exercised by `src/script/script_test.go`,
  whose implementation is not part of the provided sources and is therefore
  modelled from the specification (each such definition carries a
  `Modelled from the spec:` doc comment).

Go interface values are modelled as a closed inductive `Object`; the one
place where Go pointer identity matters (`builtinIsUndefined` compares its
argument with the `UndefinedValue` singleton pointer) is modelled by giving
the `undefined` variant a pointer tag, with tag `0` denoting the canonical
singleton.  `float64` payloads are modelled as exact rationals, which is
faithful for every operation this development evaluates.
-/

set_option maxHeartbeats 1600000

namespace Tengo

/-- Binary operators of the modelled expression language.  Only `+` is
needed by the claims under verification. -/
inductive BinOp where
  | add
deriving DecidableEq

mutual
/-- Modelled from the spec: compiler output form of an expression, after
name resolution.  Identifiers are replaced by resolved references: a global
slot index, a local slot index, a builtin-function name, a standard-module
name, or a compiled user module (its compiled body plus the names of its
global slots, in slot order). -/
inductive CExpr where
  | intLit (i : Int)
  | floatLit (q : Rat)
  | strLit (s : String)
  | arrayLit (elems : List CExpr)
  | globalRef (idx : Nat)
  | localRef (idx : Nat)
  | builtinRef (name : String)
  | stdModuleRef (name : String)
  | importUser (body : List CStmt) (names : List String)
  | binOp (op : BinOp) (lhs rhs : CExpr)
  | call (fn : CExpr) (args : List CExpr)
  | selector (rcv : CExpr) (field : String)
  | funcLit (numParams : Nat) (body : List CStmt)

/-- Modelled from the spec: compiler output form of a statement.  A `:=`
definition has been resolved to a write of a fixed global or local slot. -/
inductive CStmt where
  | assignGlobal (idx : Nat) (rhs : CExpr)
  | assignLocal (idx : Nat) (rhs : CExpr)
  | exprStmt (e : CExpr)
  | ret (e : CExpr)
end

/-- The tengo object (value) universe, from the `objects` package: a closed
tagged variant.  `undefined` carries a pointer tag so that Go pointer
identity with the `UndefinedValue` singleton (tag `0`) is expressible;
`compiledFunction` carries its compiled body; `builtinFunction` is
identified by name and dispatched by the VM model. -/
inductive Object where
  | undefined (ptr : Nat)
  | int (i : Int)
  | float (q : Rat)
  | bool (b : Bool)
  | string (s : String)
  | char (c : Int)
  | bytes (bs : List Nat)
  | array (elems : List Object)
  | immutableArray (elems : List Object)
  | map (entries : List (String × Object))
  | immutableMap (entries : List (String × Object))
  | time (t : Int)
  | error (value : Object)
  | compiledFunction (numParams : Nat) (body : List CStmt)
  | builtinFunction (name : String)

/-- The canonical `TrueValue` singleton of the `objects` package. -/
def TrueValue : Object := .bool true

/-- The canonical `FalseValue` singleton of the `objects` package. -/
def FalseValue : Object := .bool false

/-- The canonical `UndefinedValue` singleton of the `objects` package:
the `undefined` variant with pointer tag `0`. -/
def UndefinedValue : Object := .undefined 0

/-- Runtime errors of the `objects`/`runtime` packages that this
development needs.  `wrongNumArguments` is `ErrWrongNumArguments`. -/
inductive RuntimeError where
  | wrongNumArguments
  | typeMismatch
  | notIndexable
  | notCallable
  | argumentCountMismatch
  | stackOverflow
deriving DecidableEq

/-- The `ErrWrongNumArguments` error value of the `objects` package. -/
def ErrWrongNumArguments : RuntimeError := .wrongNumArguments

/-- Translation of `builtinIsString` (src/objects/builtin_type_checks.go):
one argument required, then a `*String` type assertion on it. -/
def builtinIsString (args : List Object) : Except RuntimeError Object :=
  match args with
  | [arg] =>
    match arg with
    | .string _ => .ok TrueValue
    | _ => .ok FalseValue
  | _ => .error ErrWrongNumArguments

/-- Translation of `builtinIsInt` (src/objects/builtin_type_checks.go). -/
def builtinIsInt (args : List Object) : Except RuntimeError Object :=
  match args with
  | [arg] =>
    match arg with
    | .int _ => .ok TrueValue
    | _ => .ok FalseValue
  | _ => .error ErrWrongNumArguments

/-- Translation of `builtinIsFloat` (src/objects/builtin_type_checks.go). -/
def builtinIsFloat (args : List Object) : Except RuntimeError Object :=
  match args with
  | [arg] =>
    match arg with
    | .float _ => .ok TrueValue
    | _ => .ok FalseValue
  | _ => .error ErrWrongNumArguments

/-- Translation of `builtinIsBool` (src/objects/builtin_type_checks.go). -/
def builtinIsBool (args : List Object) : Except RuntimeError Object :=
  match args with
  | [arg] =>
    match arg with
    | .bool _ => .ok TrueValue
    | _ => .ok FalseValue
  | _ => .error ErrWrongNumArguments

/-- Translation of `builtinIsChar` (src/objects/builtin_type_checks.go). -/
def builtinIsChar (args : List Object) : Except RuntimeError Object :=
  match args with
  | [arg] =>
    match arg with
    | .char _ => .ok TrueValue
    | _ => .ok FalseValue
  | _ => .error ErrWrongNumArguments

/-- Translation of `builtinIsBytes` (src/objects/builtin_type_checks.go). -/
def builtinIsBytes (args : List Object) : Except RuntimeError Object :=
  match args with
  | [arg] =>
    match arg with
    | .bytes _ => .ok TrueValue
    | _ => .ok FalseValue
  | _ => .error ErrWrongNumArguments

/-- Translation of `builtinIsArray` (src/objects/builtin_type_checks.go). -/
def builtinIsArray (args : List Object) : Except RuntimeError Object :=
  match args with
  | [arg] =>
    match arg with
    | .array _ => .ok TrueValue
    | _ => .ok FalseValue
  | _ => .error ErrWrongNumArguments

/-- Translation of `builtinIsImmutableArray`
(src/objects/builtin_type_checks.go). -/
def builtinIsImmutableArray (args : List Object) : Except RuntimeError Object :=
  match args with
  | [arg] =>
    match arg with
    | .immutableArray _ => .ok TrueValue
    | _ => .ok FalseValue
  | _ => .error ErrWrongNumArguments

/-- Translation of `builtinIsMap` (src/objects/builtin_type_checks.go). -/
def builtinIsMap (args : List Object) : Except RuntimeError Object :=
  match args with
  | [arg] =>
    match arg with
    | .map _ => .ok TrueValue
    | _ => .ok FalseValue
  | _ => .error ErrWrongNumArguments

/-- Translation of `builtinIsImmutableMap`
(src/objects/builtin_type_checks.go). -/
def builtinIsImmutableMap (args : List Object) : Except RuntimeError Object :=
  match args with
  | [arg] =>
    match arg with
    | .immutableMap _ => .ok TrueValue
    | _ => .ok FalseValue
  | _ => .error ErrWrongNumArguments

/-- Translation of `builtinIsTime` (src/objects/builtin_type_checks.go). -/
def builtinIsTime (args : List Object) : Except RuntimeError Object :=
  match args with
  | [arg] =>
    match arg with
    | .time _ => .ok TrueValue
    | _ => .ok FalseValue
  | _ => .error ErrWrongNumArguments

/-- Translation of `builtinIsError` (src/objects/builtin_type_checks.go). -/
def builtinIsError (args : List Object) : Except RuntimeError Object :=
  match args with
  | [arg] =>
    match arg with
    | .error _ => .ok TrueValue
    | _ => .ok FalseValue
  | _ => .error ErrWrongNumArguments

/-- Translation of `builtinIsUndefined`
(src/objects/builtin_type_checks.go): unlike the other type checks it
compares `args[0]` with the `UndefinedValue` singleton by Go pointer
identity, modelled here as equality with the tag-0 `undefined` object. -/
def builtinIsUndefined (args : List Object) : Except RuntimeError Object :=
  match args with
  | [arg] =>
    match arg with
    | .undefined 0 => .ok TrueValue
    | _ => .ok FalseValue
  | _ => .error ErrWrongNumArguments

/-- The thirteen type-check builtin functions of
src/objects/builtin_type_checks.go, in source order. -/
def typeCheckBuiltins : List (List Object → Except RuntimeError Object) :=
  [builtinIsString, builtinIsInt, builtinIsFloat, builtinIsBool,
   builtinIsChar, builtinIsBytes, builtinIsArray, builtinIsImmutableArray,
   builtinIsMap, builtinIsImmutableMap, builtinIsTime, builtinIsError,
   builtinIsUndefined]

/-- Modelled from the spec: the Go-side (`interface` value) universe of the
host value conversion table of section 4.1 — the supported host primitive
types.  Integer-like payloads are `Int`; `float64` payloads are exact
rationals; `time.Time` is an instant; a Go `error` is its message string. -/
inductive HostValue where
  | nil
  | str (s : String)
  | intv (i : Int)
  | int64 (i : Int)
  | boolv (b : Bool)
  | rune (c : Int)
  | byte (b : Int)
  | float64 (q : Rat)
  | bytes (bs : List Nat)
  | timeVal (t : Int)
  | errorv (msg : String)
  | mapStr (entries : List (String × HostValue))
  | seq (elems : List HostValue)

mutual
/-- Modelled from the spec: `objects.FromInterface`, the fixed host-to-value
conversion table of section 4.1 (nil to Undefined, string to String, int and
int64 to Int, bool to Bool, rune and byte to Char, float64 to Float, byte
sequence to Bytes, time to Time, error to Error wrapping a String, string
keyed map to Map, sequence to Array, element-wise recursive). -/
def FromInterface : HostValue → Object
  | .nil => UndefinedValue
  | .str s => .string s
  | .intv i => .int i
  | .int64 i => .int i
  | .boolv b => .bool b
  | .rune c => .char c
  | .byte b => .char b
  | .float64 q => .float q
  | .bytes bs => .bytes bs
  | .timeVal t => .time t
  | .errorv msg => .error (.string msg)
  | .mapStr m => .map (fromInterfaceEntries m)
  | .seq xs => .array (fromInterfaceList xs)

/-- Modelled from the spec: element-wise conversion of a host sequence. -/
def fromInterfaceList : List HostValue → List Object
  | [] => []
  | x :: xs => FromInterface x :: fromInterfaceList xs

/-- Modelled from the spec: entry-wise conversion of a string-keyed host
map. -/
def fromInterfaceEntries : List (String × HostValue) → List (String × Object)
  | [] => []
  | (k, v) :: rest => (k, FromInterface v) :: fromInterfaceEntries rest
end

/-- String payload of an Error's wrapped value (the table stores a Go
error as `Error beginning a String value`). -/
def errorString : Object → String
  | .string s => s
  | _ => ""

mutual
/-- Modelled from the spec: `objects.ToInterface`, the reverse conversion
exposed through `Variable.Value`.  Tengo `Int` comes back as the canonical
host integer (`int64`) and `Char` as `rune`; containers convert
element-wise; function objects have no host counterpart in this model. -/
def ToInterface : Object → HostValue
  | .undefined _ => .nil
  | .int i => .int64 i
  | .float q => .float64 q
  | .bool b => .boolv b
  | .string s => .str s
  | .char c => .rune c
  | .bytes bs => .bytes bs
  | .array xs => .seq (toInterfaceList xs)
  | .immutableArray xs => .seq (toInterfaceList xs)
  | .map es => .mapStr (toInterfaceEntries es)
  | .immutableMap es => .mapStr (toInterfaceEntries es)
  | .time t => .timeVal t
  | .error v => .errorv (errorString v)
  | .compiledFunction _ _ => .nil
  | .builtinFunction _ => .nil

/-- Modelled from the spec: element-wise reverse conversion of an array. -/
def toInterfaceList : List Object → List HostValue
  | [] => []
  | x :: xs => ToInterface x :: toInterfaceList xs

/-- Modelled from the spec: entry-wise reverse conversion of a map. -/
def toInterfaceEntries : List (String × Object) → List (String × HostValue)
  | [] => []
  | (k, v) :: rest => (k, ToInterface v) :: toInterfaceEntries rest
end

/-- Modelled from the spec: typed accessor for a stored Int; returns the
zero value when the stored variant does not match. -/
def Object.intValue : Object → Int
  | .int i => i
  | _ => 0

/-- Modelled from the spec: typed accessor for a stored String. -/
def Object.stringValue : Object → String
  | .string s => s
  | _ => ""

/-- Modelled from the spec: typed accessor for a stored Bool. -/
def Object.boolValue : Object → Bool
  | .bool b => b
  | _ => false

/-- Modelled from the spec: typed accessor for a stored Char (a rune). -/
def Object.charValue : Object → Int
  | .char c => c
  | _ => 0

/-- Modelled from the spec: typed accessor for a stored Float. -/
def Object.floatValue : Object → Rat
  | .float q => q
  | _ => 0

/-- Modelled from the spec: typed accessor for stored Bytes. -/
def Object.bytesValue : Object → List Nat
  | .bytes bs => bs
  | _ => []

/-- Modelled from the spec: typed accessor for a stored Time. -/
def Object.timeValue : Object → Int
  | .time t => t
  | _ => 0

/-- Modelled from the spec: typed accessor for a stored Error's message. -/
def Object.errorValue : Object → String
  | .error v => errorString v
  | _ => ""

/-- Modelled from the spec: accessor telling whether the stored variant is
Undefined. -/
def Object.isUndefinedValue : Object → Bool
  | .undefined _ => true
  | _ => false

mutual
/-- Structural host-value equality up to integer-width tags: the reverse
conversion returns the canonical host integer kind (`int64`, `rune`), so
`int` pairs with `int64` and `byte` with `rune` when the numeric values
agree; containers compare structurally, element by element — never by
identity. -/
def hostEquiv : HostValue → HostValue → Bool
  | .nil, .nil => true
  | .str a, .str b => a == b
  | .intv a, .intv b => a == b
  | .intv a, .int64 b => a == b
  | .int64 a, .intv b => a == b
  | .int64 a, .int64 b => a == b
  | .boolv a, .boolv b => a == b
  | .rune a, .rune b => a == b
  | .rune a, .byte b => a == b
  | .byte a, .rune b => a == b
  | .byte a, .byte b => a == b
  | .float64 a, .float64 b => a == b
  | .bytes a, .bytes b => a == b
  | .timeVal a, .timeVal b => a == b
  | .errorv a, .errorv b => a == b
  | .mapStr a, .mapStr b => hostEquivEntries a b
  | .seq a, .seq b => hostEquivList a b
  | _, _ => false

/-- Element-wise `hostEquiv` on sequences. -/
def hostEquivList : List HostValue → List HostValue → Bool
  | [], [] => true
  | x :: xs, y :: ys => hostEquiv x y && hostEquivList xs ys
  | _, _ => false

/-- Entry-wise `hostEquiv` on string-keyed maps. -/
def hostEquivEntries : List (String × HostValue) → List (String × HostValue) → Bool
  | [], [] => true
  | (k, v) :: rest, (k2, v2) :: rest2 =>
      k == k2 && hostEquiv v v2 && hostEquivEntries rest rest2
  | _, _ => false
end

mutual
/-- Syntax of the modelled source language, the externally supplied
abstract syntax tree of section 6: literals, identifiers, a binary
operator, calls, selectors, function literals, and import expressions.
The parser that produces it is an excluded external collaborator. -/
inductive Expr where
  | intLit (i : Int)
  | floatLit (q : Rat)
  | strLit (s : String)
  | arrayLit (elems : List Expr)
  | ident (name : String)
  | binOp (op : BinOp) (lhs rhs : Expr)
  | call (fn : Expr) (args : List Expr)
  | selector (rcv : Expr) (field : String)
  | funcLit (params : List String) (body : List Stmt)
  | importExpr (name : String)

/-- Statements of the modelled source language: `name := expr`
definitions, expression statements, and `return`. -/
inductive Stmt where
  | assign (name : String) (e : Expr)
  | exprStmt (e : Expr)
  | ret (e : Expr)
end

/-- Modelled from the spec: compile-time errors of section 7 that this
development needs (undefined identifier, disabled builtin or module
reference, module-not-found). -/
inductive CompileError where
  | undefinedIdent (name : String)
  | disabledBuiltin (name : String)
  | disabledModule (name : String)
  | moduleNotFound (name : String)
deriving DecidableEq

/-- Modelled from the spec: the compiler configuration of section 4.4 and
6 — the two disabled-name sets, fixed for the duration of one compilation,
plus the pluggable user-module loader (`none` models the default loader,
which reads local files and is outside this model, so it resolves no
name). -/
structure ScriptCfg where
  disabledBuiltins : List String
  disabledStdModules : List String
  loader : Option (String → Except String (List Stmt))

/-- Modelled from the spec: the names in the builtin-function registry the
compiler resolves against (the registry itself lives outside src/). -/
def builtinNames : List String :=
  ["print", "printf", "sprintf", "len", "copy", "append", "format",
   "string", "int", "bool", "float", "char", "bytes", "time",
   "is_int", "is_float", "is_string", "is_bool", "is_char", "is_bytes",
   "is_array", "is_immutable_array", "is_map", "is_immutable_map",
   "is_time", "is_error", "is_undefined", "type_name"]

/-- Modelled from the spec: the names of the standard-library modules. -/
def stdModuleNames : List String :=
  ["math", "os", "text", "times", "rand", "exec"]

/-- Modelled from the spec: the fixed builtin-function table a standard
module denotes (concrete module bodies are excluded collaborators; only
`math.abs` is given a behaviour, for the scripts under test). -/
def stdModuleValue (name : String) : Object :=
  if name = "math" then .immutableMap [("abs", .builtinFunction "math.abs")]
  else .immutableMap []

/-- First index of a name in a symbol list, if present. -/
def indexOfName : List String → String → Option Nat
  | [], _ => none
  | y :: ys, x => if y = x then some 0 else (indexOfName ys x).map (· + 1)

/-- Last index of a name in a symbol list, if present — local
redefinition rebinds to a new slot, so lookup must find the newest. -/
def lastIndexOfName : List String → String → Option Nat
  | [], _ => none
  | y :: ys, x =>
    match lastIndexOfName ys x with
    | some i => some (i + 1)
    | none => if y = x then some 0 else none

/-- Modelled from the spec: the global-or-builtin tail of identifier
resolution (section 4.2) — the global scope first, then the builtin
registry; a builtin whose name is in the disabled set fails with a
descriptive error; otherwise the identifier is undefined. -/
def resolveGlobalOrBuiltin (cfg : ScriptCfg) (tbl : List String)
    (n : String) : Except CompileError CExpr :=
  match indexOfName tbl n with
  | some i => .ok (.globalRef i)
  | none =>
    if n ∈ builtinNames then
      if n ∈ cfg.disabledBuiltins then .error (.disabledBuiltin n)
      else .ok (.builtinRef n)
    else .error (.undefinedIdent n)

/-- Modelled from the spec: identifier resolution of section 4.2 — locals
of the enclosing function body first (newest binding wins), then the
global-or-builtin path. -/
def resolveIdent (cfg : ScriptCfg) (tbl : List String)
    (lcl : Option (List String)) (n : String) : Except CompileError CExpr :=
  match lcl with
  | some l =>
    match lastIndexOfName l n with
    | some i => .ok (.localRef i)
    | none => resolveGlobalOrBuiltin cfg tbl n
  | none => resolveGlobalOrBuiltin cfg tbl n

mutual
/-- Modelled from the spec: name resolution and flattening of an
expression (sections 4.2–4.5).  `himp` handles an import of a non-standard
module name — at the top level it compiles the named user module through
the loader; inside a user module it reports the name as not found, since
this model restricts user modules to one level of import.  An import of a
standard module checks the disabled set and resolves to the module's
value. -/
def resolveExpr (cfg : ScriptCfg) (himp : String → Except CompileError CExpr)
    (tbl : List String) (lcl : Option (List String)) :
    Expr → Except CompileError CExpr
  | .intLit i => .ok (.intLit i)
  | .floatLit q => .ok (.floatLit q)
  | .strLit s => .ok (.strLit s)
  | .arrayLit es =>
    match resolveExprList cfg himp tbl lcl es with
    | .error e => .error e
    | .ok ces => .ok (.arrayLit ces)
  | .ident n => resolveIdent cfg tbl lcl n
  | .binOp op l r =>
    match resolveExpr cfg himp tbl lcl l with
    | .error e => .error e
    | .ok cl =>
      match resolveExpr cfg himp tbl lcl r with
      | .error e => .error e
      | .ok cr => .ok (.binOp op cl cr)
  | .call f as =>
    match resolveExpr cfg himp tbl lcl f with
    | .error e => .error e
    | .ok cf =>
      match resolveExprList cfg himp tbl lcl as with
      | .error e => .error e
      | .ok cas => .ok (.call cf cas)
  | .selector e fld =>
    match resolveExpr cfg himp tbl lcl e with
    | .error err => .error err
    | .ok ce => .ok (.selector ce fld)
  | .funcLit ps body =>
    match resolveStmts cfg himp tbl (some ps) body with
    | .error e => .error e
    | .ok r => .ok (.funcLit ps.length r.1)
  | .importExpr m =>
    if m ∈ stdModuleNames then
      if m ∈ cfg.disabledStdModules then .error (.disabledModule m)
      else .ok (.stdModuleRef m)
    else himp m

/-- Resolution of an expression list, left to right, first error wins. -/
def resolveExprList (cfg : ScriptCfg) (himp : String → Except CompileError CExpr)
    (tbl : List String) (lcl : Option (List String)) :
    List Expr → Except CompileError (List CExpr)
  | [] => .ok []
  | e :: es =>
    match resolveExpr cfg himp tbl lcl e with
    | .error err => .error err
    | .ok ce =>
      match resolveExprList cfg himp tbl lcl es with
      | .error err => .error err
      | .ok ces => .ok (ce :: ces)

/-- Modelled from the spec: resolution of a statement sequence, threading
the symbol tables.  A global `:=` reuses the name's stable slot when the
name exists and otherwise appends a fresh slot; a local `:=` always binds
a fresh slot (redefinition silently rebinds).  Returns the compiled
statements with the final tables. -/
def resolveStmts (cfg : ScriptCfg) (himp : String → Except CompileError CExpr)
    (tbl : List String) (lcl : Option (List String)) :
    List Stmt → Except CompileError (List CStmt × List String × Option (List String))
  | [] => .ok ([], tbl, lcl)
  | .assign x e :: rest =>
    match resolveExpr cfg himp tbl lcl e with
    | .error err => .error err
    | .ok ce =>
      match lcl with
      | some l =>
        match resolveStmts cfg himp tbl (some (l ++ [x])) rest with
        | .error err => .error err
        | .ok r => .ok (.assignLocal l.length ce :: r.1, r.2)
      | none =>
        match indexOfName tbl x with
        | some i =>
          match resolveStmts cfg himp tbl none rest with
          | .error err => .error err
          | .ok r => .ok (.assignGlobal i ce :: r.1, r.2)
        | none =>
          match resolveStmts cfg himp (tbl ++ [x]) none rest with
          | .error err => .error err
          | .ok r => .ok (.assignGlobal tbl.length ce :: r.1, r.2)
  | .exprStmt e :: rest =>
    match resolveExpr cfg himp tbl lcl e with
    | .error err => .error err
    | .ok ce =>
      match resolveStmts cfg himp tbl lcl rest with
      | .error err => .error err
      | .ok r => .ok (.exprStmt ce :: r.1, r.2)
  | .ret e :: rest =>
    match resolveExpr cfg himp tbl lcl e with
    | .error err => .error err
    | .ok ce =>
      match resolveStmts cfg himp tbl lcl rest with
      | .error err => .error err
      | .ok r => .ok (.ret ce :: r.1, r.2)
end

/-- Modelled from the spec: the import handler used inside a user module —
a further user-module import is reported as not found (single-level
modelling of the module graph; standard-module imports still resolve). -/
def moduleImportStub (n : String) : Except CompileError CExpr :=
  .error (.moduleNotFound n)

/-- Modelled from the spec: the top-level import handler.  A name the
loader cannot resolve is a module-not-found compile error; otherwise the
loader's source is compiled in a fresh global scope and the import
resolves to the compiled module together with its global-slot names. -/
def handleUserImport (cfg : ScriptCfg) (name : String) : Except CompileError CExpr :=
  match cfg.loader with
  | none => .error (.moduleNotFound name)
  | some L =>
    match L name with
    | .error _ => .error (.moduleNotFound name)
    | .ok mstmts =>
      match resolveStmts cfg moduleImportStub [] none mstmts with
      | .error e => .error e
      | .ok r => .ok (.importUser r.1 r.2.1)

/-- Modelled from the spec: the `script.Script` host-embedding unit — the
source (as its AST), the added variables in insertion order, the two
disabled-name sets, and the optional user-module loader. -/
structure Script where
  src : List Stmt
  vars : List (String × Object)
  disabledBuiltins : List String
  disabledStdModules : List String
  userModuleLoader : Option (String → Except String (List Stmt))

/-- Modelled from the spec: `script.New`, a Script with no variables, no
disabled names and the default (file-reading, here empty) loader. -/
def Script.New (src : List Stmt) : Script :=
  { src := src, vars := [], disabledBuiltins := [],
    disabledStdModules := [], userModuleLoader := none }

/-- Replace the value bound to a name, or append a new binding. -/
def addVar : List (String × Object) → String → Object → List (String × Object)
  | [], x, v => [(x, v)]
  | (y, w) :: rest, x, v =>
    if y = x then (y, v) :: rest else (y, w) :: addVar rest x v

/-- Delete the binding of a name. -/
def removeVar : List (String × Object) → String → List (String × Object)
  | [], _ => []
  | (y, w) :: rest, x => if y = x then rest else (y, w) :: removeVar rest x

/-- Modelled from the spec: `Script.Add` converts the host value through
the section 4.1 table and binds it; adding an existing name rebinds it to
the last value (the conversion never fails on the supported host types, so
the Go-side error result is omitted). -/
def Script.Add (s : Script) (name : String) (value : HostValue) : Script :=
  { s with vars := addVar s.vars name (FromInterface value) }

/-- Modelled from the spec: `Script.Remove` deletes a variable, returning
whether it was present. -/
def Script.Remove (s : Script) (name : String) : Bool × Script :=
  (s.vars.any (fun p => p.1 = name),
   { s with vars := removeVar s.vars name })

/-- Modelled from the spec: `Script.DisableBuiltinFunction` adds a name to
the disabled-builtin set consulted during name resolution. -/
def Script.DisableBuiltinFunction (s : Script) (name : String) : Script :=
  { s with disabledBuiltins := s.disabledBuiltins ++ [name] }

/-- Modelled from the spec: `Script.DisableStdModule` adds a name to the
disabled standard-module set consulted during import resolution. -/
def Script.DisableStdModule (s : Script) (name : String) : Script :=
  { s with disabledStdModules := s.disabledStdModules ++ [name] }

/-- Modelled from the spec: `Script.SetUserModuleLoader` replaces the
user-module loader. -/
def Script.SetUserModuleLoader (s : Script)
    (L : String → Except String (List Stmt)) : Script :=
  { s with userModuleLoader := some L }

/-- The compiler configuration a Script supplies for one compilation. -/
def Script.cfg (s : Script) : ScriptCfg :=
  { disabledBuiltins := s.disabledBuiltins,
    disabledStdModules := s.disabledStdModules,
    loader := s.userModuleLoader }

/-- Modelled from the spec: the `script.Compiled` unit — the compiled
Bytecode (program and symbol table with one stable slot index per global
name) together with the global-slot array the host reads, replaces, and
re-runs against. -/
structure Compiled where
  symbols : List String
  prog : List CStmt
  globals : List Object

/-- Modelled from the spec: `Script.Compile` seeds the global scope with
the added variables (one slot each, in insertion order), resolves the
source, and sizes the global-slot array at compile time — added variables
keep their values, globals the script itself defines start Undefined. -/
def Script.Compile (s : Script) : Except CompileError Compiled :=
  let tbl := s.vars.map Prod.fst
  match resolveStmts s.cfg (handleUserImport s.cfg) tbl none s.src with
  | .error e => .error e
  | .ok r =>
    .ok { symbols := r.2.1, prog := r.1,
          globals := s.vars.map Prod.snd ++
            List.replicate (r.2.1.length - tbl.length) UndefinedValue }

/-- Write slot `i`, extending the array with Undefined when the slot lies
beyond the current end (total model of a fixed-size array write). -/
def setOrExtend (l : List Object) (i : Nat) (v : Object) : List Object :=
  if i < l.length then l.set i v
  else l ++ List.replicate (i - l.length) UndefinedValue ++ [v]

/-- First value bound to a key in a map's entry list. -/
def lookupEntry : List (String × Object) → String → Option Object
  | [], _ => none
  | (k, v) :: rest, x => if k = x then some v else lookupEntry rest x

/-- Pair module slot names with the module's final global values. -/
def zipEntries : List String → List Object → List (String × Object)
  | [], _ => []
  | n :: ns, vs => (n, vs.headD UndefinedValue) :: zipEntries ns (vs.tail)

/-- Modelled from the spec: binary-operator dispatch on the operand
variants (section 4.1); an unmatched combination is a TypeMismatch. -/
def binaryOp : BinOp → Object → Object → Except RuntimeError Object
  | .add, .int a, .int b => .ok (.int (a + b))
  | .add, .int a, .float b => .ok (.float ((a : Rat) + b))
  | .add, .float a, .int b => .ok (.float (a + (b : Rat)))
  | .add, .float a, .float b => .ok (.float (a + b))
  | .add, .string a, .string b => .ok (.string (a ++ b))
  | .add, _, _ => .error .typeMismatch

/-- Absolute value on the exact-rational model of float64. -/
def ratAbs (q : Rat) : Rat := if q < 0 then -q else q

/-- Modelled from the spec: dispatch of a builtin or standard-module
function by name on the popped argument slice.  The thirteen type-check
builtins dispatch to their source translations; `len`, `print` and
`math.abs` are modelled as far as the scripts under test need them; any
other registry name is left without a behaviour. -/
def evalBuiltin (name : String) (args : List Object) : Except RuntimeError Object :=
  match name with
  | "len" =>
    match args with
    | [a] =>
      match a with
      | .string s => .ok (.int s.length)
      | .array xs => .ok (.int xs.length)
      | .immutableArray xs => .ok (.int xs.length)
      | .bytes bs => .ok (.int bs.length)
      | .map es => .ok (.int es.length)
      | .immutableMap es => .ok (.int es.length)
      | _ => .error .typeMismatch
    | _ => .error ErrWrongNumArguments
  | "print" => .ok UndefinedValue
  | "math.abs" =>
    match args with
    | [a] =>
      match a with
      | .float q => .ok (.float (ratAbs q))
      | .int i => .ok (.float (ratAbs (i : Rat)))
      | _ => .error .typeMismatch
    | _ => .error ErrWrongNumArguments
  | "is_string" => builtinIsString args
  | "is_int" => builtinIsInt args
  | "is_float" => builtinIsFloat args
  | "is_bool" => builtinIsBool args
  | "is_char" => builtinIsChar args
  | "is_bytes" => builtinIsBytes args
  | "is_array" => builtinIsArray args
  | "is_immutable_array" => builtinIsImmutableArray args
  | "is_map" => builtinIsMap args
  | "is_immutable_map" => builtinIsImmutableMap args
  | "is_time" => builtinIsTime args
  | "is_error" => builtinIsError args
  | "is_undefined" => builtinIsUndefined args
  | _ => .error .notCallable

/-- Input alternatives of one VM evaluation step: an expression, an
argument list, or a statement sequence, each against the current global
and local slot arrays. -/
inductive EInput where
  | expr (glb lcl : List Object) (e : CExpr)
  | exprs (glb lcl : List Object) (es : List CExpr)
  | stmts (glb lcl : List Object) (ss : List CStmt)

/-- Output alternatives matching `EInput`: one value, a value list, or a
final machine state (an optional returned value plus both slot arrays). -/
inductive EOutput where
  | val (o : Object)
  | vals (os : List Object)
  | state (ret : Option Object) (glb lcl : List Object)

/-- Modelled from the spec: the virtual machine of section 4.6 as a
recursive evaluator over compiled code.  The `Nat` bound models the
bounded frame and operand stacks of section 5: exhausting it is the
resource-exhaustion fault, here `stackOverflow`.  Calls bind positional
arguments to local slots, missing arguments default to Undefined, excess
arguments fault; a `return` stops the body and yields the value (Undefined
when a body falls through); importing a compiled user module runs its
top-level code on a fresh global array and denotes the immutable map of
its globals; selectors on maps yield Undefined for an absent key.  An
output whose shape does not match its input is impossible for
resolver-produced code and falls to TypeMismatch. -/
def evalStep : Nat → EInput → Except RuntimeError EOutput
  | 0, _ => .error .stackOverflow
  | n + 1, .expr glb lcl e =>
    match e with
    | .intLit i => .ok (.val (.int i))
    | .floatLit q => .ok (.val (.float q))
    | .strLit s => .ok (.val (.string s))
    | .arrayLit es =>
      match evalStep n (.exprs glb lcl es) with
      | .ok (.vals os) => .ok (.val (.array os))
      | .ok _ => .error .typeMismatch
      | .error err => .error err
    | .globalRef i => .ok (.val (glb.getD i UndefinedValue))
    | .localRef i => .ok (.val (lcl.getD i UndefinedValue))
    | .builtinRef nm => .ok (.val (.builtinFunction nm))
    | .stdModuleRef nm => .ok (.val (stdModuleValue nm))
    | .importUser body names =>
      match evalStep n (.stmts (List.replicate names.length UndefinedValue) [] body) with
      | .ok (.state _ g2 _) => .ok (.val (.immutableMap (zipEntries names g2)))
      | .ok _ => .error .typeMismatch
      | .error err => .error err
    | .binOp op l r =>
      match evalStep n (.expr glb lcl l) with
      | .ok (.val a) =>
        match evalStep n (.expr glb lcl r) with
        | .ok (.val b) => (binaryOp op a b).map .val
        | .ok _ => .error .typeMismatch
        | .error err => .error err
      | .ok _ => .error .typeMismatch
      | .error err => .error err
    | .call f as =>
      match evalStep n (.expr glb lcl f) with
      | .ok (.val fv) =>
        match evalStep n (.exprs glb lcl as) with
        | .ok (.vals args) =>
          match fv with
          | .compiledFunction np body =>
            if args.length > np then .error .argumentCountMismatch
            else
              match evalStep n (.stmts glb (args ++ List.replicate (np - args.length) UndefinedValue) body) with
              | .ok (.state ret _ _) => .ok (.val (ret.getD UndefinedValue))
              | .ok _ => .error .typeMismatch
              | .error err => .error err
          | .builtinFunction nm => (evalBuiltin nm args).map .val
          | _ => .error .notCallable
        | .ok _ => .error .typeMismatch
        | .error err => .error err
      | .ok _ => .error .typeMismatch
      | .error err => .error err
    | .selector e2 fld =>
      match evalStep n (.expr glb lcl e2) with
      | .ok (.val v) =>
        match v with
        | .map es => .ok (.val ((lookupEntry es fld).getD UndefinedValue))
        | .immutableMap es => .ok (.val ((lookupEntry es fld).getD UndefinedValue))
        | _ => .error .notIndexable
      | .ok _ => .error .typeMismatch
      | .error err => .error err
    | .funcLit np body => .ok (.val (.compiledFunction np body))
  | n + 1, .exprs glb lcl es =>
    match es with
    | [] => .ok (.vals [])
    | e :: rest =>
      match evalStep n (.expr glb lcl e) with
      | .ok (.val v) =>
        match evalStep n (.exprs glb lcl rest) with
        | .ok (.vals vs) => .ok (.vals (v :: vs))
        | .ok _ => .error .typeMismatch
        | .error err => .error err
      | .ok _ => .error .typeMismatch
      | .error err => .error err
  | n + 1, .stmts glb lcl ss =>
    match ss with
    | [] => .ok (.state none glb lcl)
    | .assignGlobal i e :: rest =>
      match evalStep n (.expr glb lcl e) with
      | .ok (.val v) => evalStep n (.stmts (setOrExtend glb i v) lcl rest)
      | .ok _ => .error .typeMismatch
      | .error err => .error err
    | .assignLocal i e :: rest =>
      match evalStep n (.expr glb lcl e) with
      | .ok (.val v) => evalStep n (.stmts glb (setOrExtend lcl i v) rest)
      | .ok _ => .error .typeMismatch
      | .error err => .error err
    | .exprStmt e :: rest =>
      match evalStep n (.expr glb lcl e) with
      | .ok (.val _) => evalStep n (.stmts glb lcl rest)
      | .ok _ => .error .typeMismatch
      | .error err => .error err
    | .ret e :: _ =>
      match evalStep n (.expr glb lcl e) with
      | .ok (.val v) => .ok (.state (some v) glb lcl)
      | .ok _ => .error .typeMismatch
      | .error err => .error err

/-- The fixed resource bound a VM run starts with. -/
def runFuel : Nat := 64

/-- Modelled from the spec: `Compiled.Run` executes the program against
the current global-slot array and commits the mutated array; the Bytecode
itself (symbols and program) is immutable and reusable. -/
def Compiled.Run (c : Compiled) : Except RuntimeError Compiled :=
  match evalStep runFuel (.stmts c.globals [] c.prog) with
  | .ok (.state _ g2 _) => .ok { c with globals := g2 }
  | .ok _ => .error .typeMismatch
  | .error err => .error err

/-- Modelled from the spec: `Compiled.Get` reads the global bound to a
name through its stable slot index, Undefined when the name is unknown. -/
def Compiled.Get (c : Compiled) (name : String) : Object :=
  match indexOfName c.symbols name with
  | some i => c.globals.getD i UndefinedValue
  | none => UndefinedValue

/-- Modelled from the spec: `Compiled.Set` replaces the global bound to a
name, failing on a name that was never defined. -/
def Compiled.Set (c : Compiled) (name : String) (value : HostValue) :
    Except String Compiled :=
  match indexOfName c.symbols name with
  | some i => .ok { c with globals := c.globals.set i (FromInterface value) }
  | none => .error "unable to set variable"

/-- The configuration obtained by disabling one more builtin name. -/
def disableOne (cfg : ScriptCfg) (name : String) : ScriptCfg :=
  { cfg with disabledBuiltins := cfg.disabledBuiltins ++ [name] }

mutual
/-- Whether compiled code references the builtin of the given name,
anywhere — including inside function literals and compiled user modules. -/
def usesBuiltinE (name : String) : CExpr → Bool
  | .builtinRef n => n == name
  | .arrayLit es => usesBuiltinList name es
  | .binOp _ l r => usesBuiltinE name l || usesBuiltinE name r
  | .call f as => usesBuiltinE name f || usesBuiltinList name as
  | .selector e _ => usesBuiltinE name e
  | .funcLit _ body => usesBuiltinStmts name body
  | .importUser body _ => usesBuiltinStmts name body
  | _ => false

/-- Builtin-reference search over a compiled expression list. -/
def usesBuiltinList (name : String) : List CExpr → Bool
  | [] => false
  | e :: es => usesBuiltinE name e || usesBuiltinList name es

/-- Builtin-reference search over a compiled statement sequence. -/
def usesBuiltinStmts (name : String) : List CStmt → Bool
  | [] => false
  | .assignGlobal _ e :: rest => usesBuiltinE name e || usesBuiltinStmts name rest
  | .assignLocal _ e :: rest => usesBuiltinE name e || usesBuiltinStmts name rest
  | .exprStmt e :: rest => usesBuiltinE name e || usesBuiltinStmts name rest
  | .ret e :: rest => usesBuiltinE name e || usesBuiltinStmts name rest
end

mutual
/-- Whether source code contains an `import` of the given name, anywhere —
including inside function literals. -/
def containsImportE (name : String) : Expr → Bool
  | .importExpr m => m == name
  | .arrayLit es => containsImportList name es
  | .binOp _ l r => containsImportE name l || containsImportE name r
  | .call f as => containsImportE name f || containsImportList name as
  | .selector e _ => containsImportE name e
  | .funcLit _ body => containsImportStmts name body
  | _ => false

/-- Import search over a source expression list. -/
def containsImportList (name : String) : List Expr → Bool
  | [] => false
  | e :: es => containsImportE name e || containsImportList name es

/-- Import search over a source statement sequence. -/
def containsImportStmts (name : String) : List Stmt → Bool
  | [] => false
  | .assign _ e :: rest => containsImportE name e || containsImportStmts name rest
  | .exprStmt e :: rest => containsImportE name e || containsImportStmts name rest
  | .ret e :: rest => containsImportE name e || containsImportStmts name rest
end

/-- The script `a := b + 20` with global `b` added as host int 10
(the Compiled.Set re-run example of the interoperability document). -/
def scriptSetRerun : Script :=
  (Script.New [.assign "a" (.binOp .add (.ident "b") (.intLit 20))]).Add "b" (.intv 10)

/-- The script of TestScript_Add: `a := b` after `Add(b,5)` then
`Add(b,"foo")`. -/
def scriptAddTwice : Script :=
  ((Script.New [.assign "a" (.ident "b")]).Add "b" (.intv 5)).Add "b" (.str "foo")

/-- The script of TestScript_Remove before the removal: `a := b` with `b`
added as 5. -/
def scriptBeforeRemove : Script :=
  (Script.New [.assign "a" (.ident "b")]).Add "b" (.intv 5)

/-- The script of TestScript_DisableBuiltinFunction:
`a := len([1, 2, 3])`. -/
def scriptLen : Script :=
  Script.New [.assign "a"
    (.call (.ident "len") [.arrayLit [.intLit 1, .intLit 2, .intLit 3]])]

/-- The script of TestScript_DisableStdModule:
`math := import("math"); a := math.abs(-19.84)` (the literal written as
the exact rational -1984/100). -/
def scriptMathAbs : Script :=
  Script.New [.assign "math" (.importExpr "math"),
              .assign "a" (.call (.selector (.ident "math") "abs")
                [.floatLit (mkRat (-1984) 100)])]

/-- The loader of TestScript_SetUserModuleLoader: `mod1` maps to the
source `foo := func() { return 5 }`; any other name is an error. -/
def mod1Loader : String → Except String (List Stmt) := fun name =>
  if name = "mod1" then .ok [.assign "foo" (.funcLit [] [.ret (.intLit 5)])]
  else .error "module not found"

/-- The script of TestScript_SetUserModuleLoader:
`math := import("mod1"); a := math.foo()`. -/
def scriptUserModule : Script :=
  Script.New [.assign "math" (.importExpr "mod1"),
              .assign "a" (.call (.selector (.ident "math") "foo") [])]

mutual
/-- Round trip through the conversion pair is the identity up to the
canonical integer-width tags. -/
theorem toInterface_fromInterface_equiv :
    ∀ hv : HostValue, hostEquiv (ToInterface (FromInterface hv)) hv = true
  | .nil => rfl
  | .str s => by simp [FromInterface, ToInterface, hostEquiv]
  | .intv i => by simp [FromInterface, ToInterface, hostEquiv]
  | .int64 i => by simp [FromInterface, ToInterface, hostEquiv]
  | .boolv b => by simp [FromInterface, ToInterface, hostEquiv]
  | .rune c => by simp [FromInterface, ToInterface, hostEquiv]
  | .byte b => by simp [FromInterface, ToInterface, hostEquiv]
  | .float64 q => by simp [FromInterface, ToInterface, hostEquiv]
  | .bytes bs => by simp [FromInterface, ToInterface, hostEquiv]
  | .timeVal t => by simp [FromInterface, ToInterface, hostEquiv]
  | .errorv m => by simp [FromInterface, ToInterface, hostEquiv, errorString]
  | .mapStr m => by
      simp only [FromInterface, ToInterface, hostEquiv]
      exact toInterface_fromInterface_equiv_entries m
  | .seq l => by
      simp only [FromInterface, ToInterface, hostEquiv]
      exact toInterface_fromInterface_equiv_list l

/-- Round trip on sequences, element by element. -/
theorem toInterface_fromInterface_equiv_list :
    ∀ l : List HostValue, hostEquivList (toInterfaceList (fromInterfaceList l)) l = true
  | [] => rfl
  | x :: xs => by
      simp only [fromInterfaceList, toInterfaceList, hostEquivList, Bool.and_eq_true]
      exact ⟨toInterface_fromInterface_equiv x, toInterface_fromInterface_equiv_list xs⟩

/-- Round trip on map entries, entry by entry. -/
theorem toInterface_fromInterface_equiv_entries :
    ∀ m : List (String × HostValue),
      hostEquivEntries (toInterfaceEntries (fromInterfaceEntries m)) m = true
  | [] => rfl
  | (k, v) :: rest => by
      simp only [fromInterfaceEntries, toInterfaceEntries, hostEquivEntries,
        Bool.and_eq_true, beq_self_eq_true]
      exact ⟨⟨trivial, toInterface_fromInterface_equiv v⟩,
        toInterface_fromInterface_equiv_entries rest⟩
end

/-- One-argument totality of `builtinIsString`. -/
theorem isString_single (a : Object) :
    builtinIsString [a] = .ok TrueValue ∨ builtinIsString [a] = .ok FalseValue := by
  cases a <;> simp [builtinIsString]

/-- One-argument totality of `builtinIsInt`. -/
theorem isInt_single (a : Object) :
    builtinIsInt [a] = .ok TrueValue ∨ builtinIsInt [a] = .ok FalseValue := by
  cases a <;> simp [builtinIsInt]

/-- One-argument totality of `builtinIsFloat`. -/
theorem isFloat_single (a : Object) :
    builtinIsFloat [a] = .ok TrueValue ∨ builtinIsFloat [a] = .ok FalseValue := by
  cases a <;> simp [builtinIsFloat]

/-- One-argument totality of `builtinIsBool`. -/
theorem isBool_single (a : Object) :
    builtinIsBool [a] = .ok TrueValue ∨ builtinIsBool [a] = .ok FalseValue := by
  cases a <;> simp [builtinIsBool]

/-- One-argument totality of `builtinIsChar`. -/
theorem isChar_single (a : Object) :
    builtinIsChar [a] = .ok TrueValue ∨ builtinIsChar [a] = .ok FalseValue := by
  cases a <;> simp [builtinIsChar]

/-- One-argument totality of `builtinIsBytes`. -/
theorem isBytes_single (a : Object) :
    builtinIsBytes [a] = .ok TrueValue ∨ builtinIsBytes [a] = .ok FalseValue := by
  cases a <;> simp [builtinIsBytes]

/-- One-argument totality of `builtinIsArray`. -/
theorem isArray_single (a : Object) :
    builtinIsArray [a] = .ok TrueValue ∨ builtinIsArray [a] = .ok FalseValue := by
  cases a <;> simp [builtinIsArray]

/-- One-argument totality of `builtinIsImmutableArray`. -/
theorem isImmutableArray_single (a : Object) :
    builtinIsImmutableArray [a] = .ok TrueValue ∨
      builtinIsImmutableArray [a] = .ok FalseValue := by
  cases a <;> simp [builtinIsImmutableArray]

/-- One-argument totality of `builtinIsMap`. -/
theorem isMap_single (a : Object) :
    builtinIsMap [a] = .ok TrueValue ∨ builtinIsMap [a] = .ok FalseValue := by
  cases a <;> simp [builtinIsMap]

/-- One-argument totality of `builtinIsImmutableMap`. -/
theorem isImmutableMap_single (a : Object) :
    builtinIsImmutableMap [a] = .ok TrueValue ∨
      builtinIsImmutableMap [a] = .ok FalseValue := by
  cases a <;> simp [builtinIsImmutableMap]

/-- One-argument totality of `builtinIsTime`. -/
theorem isTime_single (a : Object) :
    builtinIsTime [a] = .ok TrueValue ∨ builtinIsTime [a] = .ok FalseValue := by
  cases a <;> simp [builtinIsTime]

/-- One-argument totality of `builtinIsError`. -/
theorem isError_single (a : Object) :
    builtinIsError [a] = .ok TrueValue ∨ builtinIsError [a] = .ok FalseValue := by
  cases a <;> simp [builtinIsError]

/-- One-argument totality of `builtinIsUndefined`. -/
theorem isUndefined_single (a : Object) :
    builtinIsUndefined [a] = .ok TrueValue ∨ builtinIsUndefined [a] = .ok FalseValue := by
  cases a
  case undefined p => cases p <;> simp [builtinIsUndefined]
  all_goals simp [builtinIsUndefined]

/-- C7: every supported host primitive of the section 4.1 conversion table
round-trips: converting the host value to a tengo value and reading it
back through the matching typed accessor returns the original value (nil,
string, int, int64, bool, rune, byte, float64, byte sequence, time,
error); string-keyed maps and sequences round-trip through the generic
value accessor up to the canonical integer-width tags, compared
structurally — never by identity. -/
theorem host_conversion_roundtrip :
    (FromInterface .nil = UndefinedValue ∧ (FromInterface .nil).isUndefinedValue = true) ∧
    (∀ s, (FromInterface (.str s)).stringValue = s) ∧
    (∀ i, (FromInterface (.intv i)).intValue = i) ∧
    (∀ i, (FromInterface (.int64 i)).intValue = i) ∧
    (∀ b, (FromInterface (.boolv b)).boolValue = b) ∧
    (∀ c, (FromInterface (.rune c)).charValue = c) ∧
    (∀ b, (FromInterface (.byte b)).charValue = b) ∧
    (∀ q, (FromInterface (.float64 q)).floatValue = q) ∧
    (∀ bs, (FromInterface (.bytes bs)).bytesValue = bs) ∧
    (∀ t, (FromInterface (.timeVal t)).timeValue = t) ∧
    (∀ m, (FromInterface (.errorv m)).errorValue = m) ∧
    (∀ es, hostEquiv (ToInterface (FromInterface (.mapStr es))) (.mapStr es) = true) ∧
    (∀ l, hostEquiv (ToInterface (FromInterface (.seq l))) (.seq l) = true) :=
  ⟨⟨rfl, rfl⟩, fun _ => rfl, fun _ => rfl, fun _ => rfl, fun _ => rfl,
   fun _ => rfl, fun _ => rfl, fun _ => rfl, fun _ => rfl, fun _ => rfl,
   fun _ => rfl, fun _ => toInterface_fromInterface_equiv _,
   fun _ => toInterface_fromInterface_equiv _⟩

/-- C8: every type-check builtin called with an argument list whose length
is not one returns the ErrWrongNumArguments error value — an ordinary
script-visible error result, not a fault. -/
theorem type_check_wrong_arg_count :
    ∀ f ∈ typeCheckBuiltins, ∀ args : List Object, args.length ≠ 1 →
      f args = .error ErrWrongNumArguments := by
  intro f hf args hlen
  simp only [typeCheckBuiltins, List.mem_cons, List.not_mem_nil, or_false] at hf
  rcases hf with rfl | rfl | rfl | rfl | rfl | rfl | rfl | rfl | rfl | rfl | rfl | rfl | rfl <;>
    rcases args with _ | ⟨a, _ | ⟨b, t⟩⟩ <;>
      first
        | rfl
        | exact absurd rfl hlen

/-- C8 witness: the zero-argument and two-argument calls of two concrete
type-check builtins return ErrWrongNumArguments. -/
theorem type_check_wrong_arg_count_witness :
    builtinIsString [] = .error ErrWrongNumArguments ∧
    builtinIsUndefined [TrueValue, FalseValue] = .error ErrWrongNumArguments :=
  ⟨type_check_wrong_arg_count builtinIsString (by simp [typeCheckBuiltins]) [] (by simp),
   type_check_wrong_arg_count builtinIsUndefined (by simp [typeCheckBuiltins])
     [TrueValue, FalseValue] (by simp)⟩

/-- C9: every type-check builtin called with exactly one argument of any
variant never returns an error — the result is always exactly the
canonical TrueValue or the canonical FalseValue. -/
theorem type_check_single_arg_no_error :
    ∀ f ∈ typeCheckBuiltins, ∀ a : Object,
      f [a] = .ok TrueValue ∨ f [a] = .ok FalseValue := by
  intro f hf a
  simp only [typeCheckBuiltins, List.mem_cons, List.not_mem_nil, or_false] at hf
  rcases hf with rfl | rfl | rfl | rfl | rfl | rfl | rfl | rfl | rfl | rfl | rfl | rfl | rfl
  · exact isString_single a
  · exact isInt_single a
  · exact isFloat_single a
  · exact isBool_single a
  · exact isChar_single a
  · exact isBytes_single a
  · exact isArray_single a
  · exact isImmutableArray_single a
  · exact isMap_single a
  · exact isImmutableMap_single a
  · exact isTime_single a
  · exact isError_single a
  · exact isUndefined_single a

/-- C9 witness: a concrete one-argument call of a type-check builtin. -/
theorem type_check_single_arg_no_error_witness :
    builtinIsMap [UndefinedValue] = .ok TrueValue ∨
      builtinIsMap [UndefinedValue] = .ok FalseValue :=
  type_check_single_arg_no_error builtinIsMap (by simp [typeCheckBuiltins]) UndefinedValue

/-- C10: `builtinIsUndefined` with one argument decides by identity with
the canonical UndefinedValue singleton, not by variant: it returns True
exactly on that object, and an Undefined-variant object that is not the
singleton yields False. -/
theorem is_undefined_identity_semantics :
    (∀ a : Object, builtinIsUndefined [a] = .ok TrueValue ↔ a = UndefinedValue) ∧
    builtinIsUndefined [Object.undefined 1] = .ok FalseValue ∧
    Object.undefined 1 ≠ UndefinedValue := by
  refine ⟨?_, rfl, by intro h; simp [UndefinedValue] at h⟩
  intro a
  constructor
  · intro h
    cases a
    case undefined p =>
      cases p with
      | zero => rfl
      | succ k => simp [builtinIsUndefined, TrueValue, FalseValue] at h
    all_goals simp [builtinIsUndefined, TrueValue, FalseValue] at h
  · intro h
    subst h
    rfl

/-- C10 witness: the singleton yields True, a non-singleton Undefined
object yields False. -/
theorem is_undefined_identity_semantics_witness :
    builtinIsUndefined [UndefinedValue] = .ok TrueValue ∧
    builtinIsUndefined [Object.undefined 1] = .ok FalseValue :=
  ⟨(is_undefined_identity_semantics.1 UndefinedValue).mpr rfl,
   is_undefined_identity_semantics.2.1⟩

/-- Success of the global-or-builtin resolution path is unchanged by
disabling a builtin the result does not use, and turns into the
disabled-builtin error when the result references the disabled name. -/
theorem resolveGlobalOrBuiltin_disable (cfg : ScriptCfg) (name : String)
    (tbl : List String) (n : String) (ce : CExpr)
    (hres : resolveGlobalOrBuiltin cfg tbl n = .ok ce) :
    resolveGlobalOrBuiltin (disableOne cfg name) tbl n =
      if usesBuiltinE name ce then .error (.disabledBuiltin name) else .ok ce := by
  simp only [resolveGlobalOrBuiltin] at hres ⊢
  split at hres
  · rename_i i hidx
    simp only [Except.ok.injEq] at hres
    subst hres
    simp [hidx, usesBuiltinE]
  · rename_i hidx
    split at hres
    · rename_i hb
      split at hres
      · simp at hres
      · rename_i hdis
        simp only [Except.ok.injEq] at hres
        subst hres
        by_cases hn : n = name
        · subst hn
          simp [hb, disableOne, usesBuiltinE]
        · simp only [usesBuiltinE, beq_iff_eq, if_neg hn, if_pos hb]
          rw [if_neg]
          simp only [disableOne, List.mem_append, List.mem_singleton]
          exact fun hmem => hmem.elim hdis hn
    · simp at hres

/-- Success of identifier resolution is unchanged by disabling a builtin
the result does not use, and turns into the disabled-builtin error when
the result is a reference to the disabled name. -/
theorem resolveIdent_disable (cfg : ScriptCfg) (name : String)
    (tbl : List String) (lcl : Option (List String)) (n : String) (ce : CExpr)
    (hres : resolveIdent cfg tbl lcl n = .ok ce) :
    resolveIdent (disableOne cfg name) tbl lcl n =
      if usesBuiltinE name ce then .error (.disabledBuiltin name) else .ok ce := by
  simp only [resolveIdent] at hres ⊢
  split at hres
  · -- lcl = some l
    split at hres
    · -- a local binding
      rename_i i hlast
      simp only [Except.ok.injEq] at hres
      subst hres
      simp [hlast, usesBuiltinE]
    · -- fall through to the global path
      exact resolveGlobalOrBuiltin_disable cfg name tbl n ce hres
  · -- lcl = none: the global path
    exact resolveGlobalOrBuiltin_disable cfg name tbl n ce hres

mutual
/-- Disabling one more builtin name turns a successful expression
resolution into the disabled-builtin error exactly when the resolved
output references that builtin, and leaves it unchanged otherwise —
provided the import handler pair behaves the same way. -/
theorem resolveExpr_disable (cfg : ScriptCfg)
    (h h' : String → Except CompileError CExpr) (name : String)
    (hP : ∀ m ce, h m = .ok ce →
      h' m = if usesBuiltinE name ce then .error (.disabledBuiltin name) else .ok ce) :
    ∀ tbl lcl e ce, resolveExpr cfg h tbl lcl e = .ok ce →
      resolveExpr (disableOne cfg name) h' tbl lcl e =
        if usesBuiltinE name ce then .error (.disabledBuiltin name) else .ok ce
  | tbl, lcl, .intLit i, ce, hres => by
      simp only [resolveExpr, Except.ok.injEq] at hres
      subst hres
      simp [resolveExpr, usesBuiltinE]
  | tbl, lcl, .floatLit q, ce, hres => by
      simp only [resolveExpr, Except.ok.injEq] at hres
      subst hres
      simp [resolveExpr, usesBuiltinE]
  | tbl, lcl, .strLit s, ce, hres => by
      simp only [resolveExpr, Except.ok.injEq] at hres
      subst hres
      simp [resolveExpr, usesBuiltinE]
  | tbl, lcl, .arrayLit es, ce, hres => by
      simp only [resolveExpr] at hres
      split at hres
      · simp at hres
      · rename_i ces hL
        simp only [Except.ok.injEq] at hres
        subst hres
        have ih := resolveExprList_disable cfg h h' name hP tbl lcl es ces hL
        cases hU : usesBuiltinList name ces <;>
          simp [resolveExpr, usesBuiltinE, ih, hU]
  | tbl, lcl, .ident n, ce, hres => by
      simp only [resolveExpr] at hres ⊢
      exact resolveIdent_disable cfg name tbl lcl n ce hres
  | tbl, lcl, .binOp op l r, ce, hres => by
      simp only [resolveExpr] at hres
      split at hres
      · simp at hres
      · rename_i cl hl
        split at hres
        · simp at hres
        · rename_i cr hr
          simp only [Except.ok.injEq] at hres
          subst hres
          have ihl := resolveExpr_disable cfg h h' name hP tbl lcl l cl hl
          have ihr := resolveExpr_disable cfg h h' name hP tbl lcl r cr hr
          cases hUl : usesBuiltinE name cl <;> cases hUr : usesBuiltinE name cr <;>
            simp [resolveExpr, usesBuiltinE, ihl, ihr, hUl, hUr]
  | tbl, lcl, .call f as, ce, hres => by
      simp only [resolveExpr] at hres
      split at hres
      · simp at hres
      · rename_i cf hf
        split at hres
        · simp at hres
        · rename_i cas has
          simp only [Except.ok.injEq] at hres
          subst hres
          have ihf := resolveExpr_disable cfg h h' name hP tbl lcl f cf hf
          have ihas := resolveExprList_disable cfg h h' name hP tbl lcl as cas has
          cases hUf : usesBuiltinE name cf <;> cases hUa : usesBuiltinList name cas <;>
            simp [resolveExpr, usesBuiltinE, ihf, ihas, hUf, hUa]
  | tbl, lcl, .selector e fld, ce, hres => by
      simp only [resolveExpr] at hres
      split at hres
      · simp at hres
      · rename_i ce2 he
        simp only [Except.ok.injEq] at hres
        subst hres
        have ih := resolveExpr_disable cfg h h' name hP tbl lcl e ce2 he
        cases hU : usesBuiltinE name ce2 <;>
          simp [resolveExpr, usesBuiltinE, ih, hU]
  | tbl, lcl, .funcLit ps body, ce, hres => by
      simp only [resolveExpr] at hres
      split at hres
      · simp at hres
      · rename_i trip heq
        obtain ⟨cb, tbl2, lcl2⟩ := trip
        simp only [Except.ok.injEq] at hres
        subst hres
        have ih := resolveStmts_disable cfg h h' name hP tbl (some ps) body
          (cb, tbl2, lcl2) heq
        cases hU : usesBuiltinStmts name cb <;>
          simp_all [resolveExpr, usesBuiltinE]
  | tbl, lcl, .importExpr m, ce, hres => by
      simp only [resolveExpr] at hres
      by_cases hm : m ∈ stdModuleNames
      · rw [if_pos hm] at hres
        by_cases hd : m ∈ cfg.disabledStdModules
        · rw [if_pos hd] at hres
          simp at hres
        · rw [if_neg hd] at hres
          simp only [Except.ok.injEq] at hres
          subst hres
          simp only [resolveExpr, usesBuiltinE]
          rw [if_pos hm, if_neg (by simpa [disableOne] using hd)]
          simp
      · rw [if_neg hm] at hres
        simp only [resolveExpr]
        rw [if_neg hm]
        exact hP m ce hres

/-- List version of `resolveExpr_disable`. -/
theorem resolveExprList_disable (cfg : ScriptCfg)
    (h h' : String → Except CompileError CExpr) (name : String)
    (hP : ∀ m ce, h m = .ok ce →
      h' m = if usesBuiltinE name ce then .error (.disabledBuiltin name) else .ok ce) :
    ∀ tbl lcl es ces, resolveExprList cfg h tbl lcl es = .ok ces →
      resolveExprList (disableOne cfg name) h' tbl lcl es =
        if usesBuiltinList name ces then .error (.disabledBuiltin name) else .ok ces
  | tbl, lcl, [], ces, hres => by
      simp only [resolveExprList, Except.ok.injEq] at hres
      subst hres
      simp [resolveExprList, usesBuiltinList]
  | tbl, lcl, e :: es, ces, hres => by
      simp only [resolveExprList] at hres
      split at hres
      · simp at hres
      · rename_i ce he
        split at hres
        · simp at hres
        · rename_i ces2 hes
          simp only [Except.ok.injEq] at hres
          subst hres
          have ihe := resolveExpr_disable cfg h h' name hP tbl lcl e ce he
          have ihes := resolveExprList_disable cfg h h' name hP tbl lcl es ces2 hes
          cases hUe : usesBuiltinE name ce <;> cases hUs : usesBuiltinList name ces2 <;>
            simp [resolveExprList, usesBuiltinList, ihe, ihes, hUe, hUs]

/-- Statement version of `resolveExpr_disable`, threading the tables. -/
theorem resolveStmts_disable (cfg : ScriptCfg)
    (h h' : String → Except CompileError CExpr) (name : String)
    (hP : ∀ m ce, h m = .ok ce →
      h' m = if usesBuiltinE name ce then .error (.disabledBuiltin name) else .ok ce) :
    ∀ tbl lcl ss out, resolveStmts cfg h tbl lcl ss = .ok out →
      resolveStmts (disableOne cfg name) h' tbl lcl ss =
        if usesBuiltinStmts name out.1 then .error (.disabledBuiltin name) else .ok out
  | tbl, lcl, [], out, hres => by
      simp only [resolveStmts, Except.ok.injEq] at hres
      subst hres
      simp [resolveStmts, usesBuiltinStmts]
  | tbl, lcl, .assign x e :: rest, out, hres => by
      simp only [resolveStmts] at hres
      split at hres
      · simp at hres
      · rename_i ce he
        have ihe := resolveExpr_disable cfg h h' name hP tbl lcl e ce he
        split at hres
        · -- lcl = some l
          rename_i l
          split at hres
          · simp at hres
          · rename_i trip hrest
            obtain ⟨crest, tbl2, lcl2⟩ := trip
            simp only [Except.ok.injEq] at hres
            subst hres
            have ihr := resolveStmts_disable cfg h h' name hP tbl (some (l ++ [x]))
              rest (crest, tbl2, lcl2) hrest
            cases hUe : usesBuiltinE name ce <;>
              cases hUs : usesBuiltinStmts name crest <;>
                simp_all [resolveStmts, usesBuiltinStmts]
        · -- lcl = none
          split at hres
          · -- existing global slot
            rename_i i hidx
            split at hres
            · simp at hres
            · rename_i trip hrest
              obtain ⟨crest, tbl2, lcl2⟩ := trip
              simp only [Except.ok.injEq] at hres
              subst hres
              have ihr := resolveStmts_disable cfg h h' name hP tbl none rest
                (crest, tbl2, lcl2) hrest
              cases hUe : usesBuiltinE name ce <;>
                cases hUs : usesBuiltinStmts name crest <;>
                  simp_all [resolveStmts, usesBuiltinStmts]
          · -- fresh global slot
            rename_i hidx
            split at hres
            · simp at hres
            · rename_i trip hrest
              obtain ⟨crest, tbl2, lcl2⟩ := trip
              simp only [Except.ok.injEq] at hres
              subst hres
              have ihr := resolveStmts_disable cfg h h' name hP (tbl ++ [x]) none rest
                (crest, tbl2, lcl2) hrest
              cases hUe : usesBuiltinE name ce <;>
                cases hUs : usesBuiltinStmts name crest <;>
                  simp_all [resolveStmts, usesBuiltinStmts]
  | tbl, lcl, .exprStmt e :: rest, out, hres => by
      simp only [resolveStmts] at hres
      split at hres
      · simp at hres
      · rename_i ce he
        split at hres
        · simp at hres
        · rename_i trip hrest
          obtain ⟨crest, tbl2, lcl2⟩ := trip
          simp only [Except.ok.injEq] at hres
          subst hres
          have ihe := resolveExpr_disable cfg h h' name hP tbl lcl e ce he
          have ihr := resolveStmts_disable cfg h h' name hP tbl lcl rest
            (crest, tbl2, lcl2) hrest
          cases hUe : usesBuiltinE name ce <;>
            cases hUs : usesBuiltinStmts name crest <;>
              simp_all [resolveStmts, usesBuiltinStmts]
  | tbl, lcl, .ret e :: rest, out, hres => by
      simp only [resolveStmts] at hres
      split at hres
      · simp at hres
      · rename_i ce he
        split at hres
        · simp at hres
        · rename_i trip hrest
          obtain ⟨crest, tbl2, lcl2⟩ := trip
          simp only [Except.ok.injEq] at hres
          subst hres
          have ihe := resolveExpr_disable cfg h h' name hP tbl lcl e ce he
          have ihr := resolveStmts_disable cfg h h' name hP tbl lcl rest
            (crest, tbl2, lcl2) hrest
          cases hUe : usesBuiltinE name ce <;>
            cases hUs : usesBuiltinStmts name crest <;>
              simp_all [resolveStmts, usesBuiltinStmts]
end

/-- The top-level user-import handlers of a configuration and of the same
configuration with one more disabled builtin behave as
`resolveExpr_disable` requires of an import-handler pair. -/
theorem handleUserImport_disable (cfg : ScriptCfg) (name : String) :
    ∀ m ce, handleUserImport cfg m = .ok ce →
      handleUserImport (disableOne cfg name) m =
        if usesBuiltinE name ce then .error (.disabledBuiltin name) else .ok ce := by
  intro m ce hres
  have hstub : ∀ m2 ce2, moduleImportStub m2 = .ok ce2 →
      moduleImportStub m2 =
        if usesBuiltinE name ce2 then .error (.disabledBuiltin name) else .ok ce2 := by
    intro m2 ce2 hh
    simp [moduleImportStub] at hh
  have hload : (disableOne cfg name).loader = cfg.loader := rfl
  simp only [handleUserImport, hload] at hres ⊢
  split at hres
  · simp at hres
  · rename_i L
    split at hres
    · simp at hres
    · rename_i mstmts hLm
      split at hres
      · simp at hres
      · rename_i r heq
        simp only [Except.ok.injEq] at hres
        subst hres
        have ih := resolveStmts_disable cfg moduleImportStub moduleImportStub name
          hstub [] none mstmts r heq
        cases hU : usesBuiltinStmts name r.1 <;>
          simp_all [usesBuiltinE]

/-- C2: a script that compiled successfully and whose compiled output
references a builtin by name fails to compile — with the descriptive
disabled-builtin error produced during name resolution — once that name
is placed in the disabled set. -/
theorem disable_builtin_fails_compile :
    ∀ (s : Script) (name : String) (c : Compiled),
      s.Compile = .ok c → usesBuiltinStmts name c.prog = true →
      (s.DisableBuiltinFunction name).Compile = .error (.disabledBuiltin name) := by
  intro s name c hc huse
  simp only [Script.Compile] at hc
  split at hc
  · simp at hc
  · rename_i r heq
    simp only [Except.ok.injEq] at hc
    subst hc
    simp only at huse
    have ih := resolveStmts_disable s.cfg (handleUserImport s.cfg)
      (handleUserImport (disableOne s.cfg name)) name
      (handleUserImport_disable s.cfg name) (s.vars.map Prod.fst) none s.src r heq
    rw [huse] at ih
    simp only [if_true] at ih
    have hcfg : (s.DisableBuiltinFunction name).cfg = disableOne s.cfg name := rfl
    have hvars : (s.DisableBuiltinFunction name).vars = s.vars := rfl
    have hsrc : (s.DisableBuiltinFunction name).src = s.src := rfl
    simp only [Script.Compile, hcfg, hvars, hsrc, ih]

/-- C2 witness: `a := len([1, 2, 3])` compiles and runs to `a = 3`; after
disabling `len` the very same script no longer compiles. -/
theorem disable_builtin_fails_compile_witness :
    (∃ c c1, scriptLen.Compile = .ok c ∧ usesBuiltinStmts "len" c.prog = true ∧
      c.Run = .ok c1 ∧ (c1.Get "a").intValue = 3) ∧
    (scriptLen.DisableBuiltinFunction "len").Compile =
      .error (.disabledBuiltin "len") := by
  refine ⟨⟨_, _, rfl, rfl, rfl, rfl⟩, ?_⟩
  exact disable_builtin_fails_compile scriptLen "len" _ rfl rfl

mutual
/-- An expression that resolves successfully under a configuration whose
disabled standard-module set holds `name` cannot contain `import(name)`
of that standard module anywhere: resolution visits every subexpression
and would have failed at the import. -/
theorem resolveOk_no_disabled_importE (cfg : ScriptCfg)
    (h : String → Except CompileError CExpr) (name : String)
    (hstd : name ∈ stdModuleNames) (hdis : name ∈ cfg.disabledStdModules) :
    ∀ tbl lcl e ce, resolveExpr cfg h tbl lcl e = .ok ce →
      containsImportE name e = false
  | tbl, lcl, .intLit i, ce, _ => rfl
  | tbl, lcl, .floatLit q, ce, _ => rfl
  | tbl, lcl, .strLit s, ce, _ => rfl
  | tbl, lcl, .ident n, ce, _ => rfl
  | tbl, lcl, .arrayLit es, ce, hres => by
      simp only [resolveExpr] at hres
      split at hres
      · simp at hres
      · rename_i ces hL
        exact resolveOk_no_disabled_importList cfg h name hstd hdis tbl lcl es ces hL
  | tbl, lcl, .binOp op l r, ce, hres => by
      simp only [resolveExpr] at hres
      split at hres
      · simp at hres
      · rename_i cl hl
        split at hres
        · simp at hres
        · rename_i cr hr
          have ihl := resolveOk_no_disabled_importE cfg h name hstd hdis tbl lcl l cl hl
          have ihr := resolveOk_no_disabled_importE cfg h name hstd hdis tbl lcl r cr hr
          simp [containsImportE, ihl, ihr]
  | tbl, lcl, .call f as, ce, hres => by
      simp only [resolveExpr] at hres
      split at hres
      · simp at hres
      · rename_i cf hf
        split at hres
        · simp at hres
        · rename_i cas has
          have ihf := resolveOk_no_disabled_importE cfg h name hstd hdis tbl lcl f cf hf
          have ihas := resolveOk_no_disabled_importList cfg h name hstd hdis tbl lcl as cas has
          simp [containsImportE, ihf, ihas]
  | tbl, lcl, .selector e fld, ce, hres => by
      simp only [resolveExpr] at hres
      split at hres
      · simp at hres
      · rename_i ce2 he
        simp only [containsImportE]
        exact resolveOk_no_disabled_importE cfg h name hstd hdis tbl lcl e ce2 he
  | tbl, lcl, .funcLit ps body, ce, hres => by
      simp only [resolveExpr] at hres
      split at hres
      · simp at hres
      · rename_i r heq
        simp only [containsImportE]
        exact resolveOk_no_disabled_importS cfg h name hstd hdis tbl (some ps) body r heq
  | tbl, lcl, .importExpr m, ce, hres => by
      simp only [containsImportE, beq_eq_false_iff_ne, ne_eq]
      intro hmn
      subst hmn
      simp only [resolveExpr, if_pos hstd, if_pos hdis] at hres
      simp at hres

/-- List version of `resolveOk_no_disabled_importE`. -/
theorem resolveOk_no_disabled_importList (cfg : ScriptCfg)
    (h : String → Except CompileError CExpr) (name : String)
    (hstd : name ∈ stdModuleNames) (hdis : name ∈ cfg.disabledStdModules) :
    ∀ tbl lcl es ces, resolveExprList cfg h tbl lcl es = .ok ces →
      containsImportList name es = false
  | tbl, lcl, [], ces, _ => rfl
  | tbl, lcl, e :: es, ces, hres => by
      simp only [resolveExprList] at hres
      split at hres
      · simp at hres
      · rename_i ce he
        split at hres
        · simp at hres
        · rename_i ces2 hes
          have ihe := resolveOk_no_disabled_importE cfg h name hstd hdis tbl lcl e ce he
          have ihes := resolveOk_no_disabled_importList cfg h name hstd hdis tbl lcl es ces2 hes
          simp [containsImportList, ihe, ihes]

/-- Statement version of `resolveOk_no_disabled_importE`. -/
theorem resolveOk_no_disabled_importS (cfg : ScriptCfg)
    (h : String → Except CompileError CExpr) (name : String)
    (hstd : name ∈ stdModuleNames) (hdis : name ∈ cfg.disabledStdModules) :
    ∀ tbl lcl ss out, resolveStmts cfg h tbl lcl ss = .ok out →
      containsImportStmts name ss = false
  | tbl, lcl, [], out, _ => rfl
  | tbl, lcl, .assign x e :: rest, out, hres => by
      simp only [resolveStmts] at hres
      split at hres
      · simp at hres
      · rename_i ce he
        have ihe := resolveOk_no_disabled_importE cfg h name hstd hdis tbl lcl e ce he
        split at hres
        · rename_i l
          split at hres
          · simp at hres
          · rename_i r hrest
            have ihr := resolveOk_no_disabled_importS cfg h name hstd hdis tbl
              (some (l ++ [x])) rest r hrest
            simp [containsImportStmts, ihe, ihr]
        · split at hres
          · rename_i i hidx
            split at hres
            · simp at hres
            · rename_i r hrest
              have ihr := resolveOk_no_disabled_importS cfg h name hstd hdis tbl
                none rest r hrest
              simp [containsImportStmts, ihe, ihr]
          · rename_i hidx
            split at hres
            · simp at hres
            · rename_i r hrest
              have ihr := resolveOk_no_disabled_importS cfg h name hstd hdis
                (tbl ++ [x]) none rest r hrest
              simp [containsImportStmts, ihe, ihr]
  | tbl, lcl, .exprStmt e :: rest, out, hres => by
      simp only [resolveStmts] at hres
      split at hres
      · simp at hres
      · rename_i ce he
        split at hres
        · simp at hres
        · rename_i r hrest
          have ihe := resolveOk_no_disabled_importE cfg h name hstd hdis tbl lcl e ce he
          have ihr := resolveOk_no_disabled_importS cfg h name hstd hdis tbl lcl rest r hrest
          simp [containsImportStmts, ihe, ihr]
  | tbl, lcl, .ret e :: rest, out, hres => by
      simp only [resolveStmts] at hres
      split at hres
      · simp at hres
      · rename_i ce he
        split at hres
        · simp at hres
        · rename_i r hrest
          have ihe := resolveOk_no_disabled_importE cfg h name hstd hdis tbl lcl e ce he
          have ihr := resolveOk_no_disabled_importS cfg h name hstd hdis tbl lcl rest r hrest
          simp [containsImportStmts, ihe, ihr]
end

/-- C3: a script whose source contains `import(name)` of a standard
module whose name is in the disabled set before compilation fails to
compile. -/
theorem disable_std_module_fails_compile :
    ∀ (s : Script) (name : String),
      name ∈ stdModuleNames → name ∈ s.disabledStdModules →
      containsImportStmts name s.src = true →
      ∃ e, s.Compile = .error e := by
  intro s name hstd hdis hcon
  cases hc : s.Compile with
  | error e => exact ⟨e, rfl⟩
  | ok c =>
    exfalso
    simp only [Script.Compile] at hc
    split at hc
    · simp at hc
    · rename_i r heq
      have := resolveOk_no_disabled_importS s.cfg (handleUserImport s.cfg) name
        hstd hdis (s.vars.map Prod.fst) none s.src r heq
      rw [hcon] at this
      exact Bool.true_eq_false.mp this

/-- C3 witness: `math := import("math"); a := math.abs(-19.84)` compiles
and runs to `a = 19.84`; after disabling the `math` module the very same
script no longer compiles. -/
theorem disable_std_module_fails_compile_witness :
    (∃ c c1, scriptMathAbs.Compile = .ok c ∧ c.Run = .ok c1 ∧
      (c1.Get "a").floatValue = 19.84) ∧
    (∃ e, (scriptMathAbs.DisableStdModule "math").Compile = .error e) := by
  constructor
  · refine ⟨_, _, rfl, rfl, ?_⟩
    have h : (19.84 : Rat) = mkRat 1984 100 := by norm_num
    rw [h]
    rfl
  · exact disable_std_module_fails_compile (scriptMathAbs.DisableStdModule "math")
      "math" (by simp [stdModuleNames]) (by simp [Script.DisableStdModule]) rfl

/-- C1: the `a := b + 20` script compiled once with `b = 10` runs to
`a = 30`; after replacing the global `b` with 20 through Compiled.Set the
same Bytecode re-runs to `a = 40`, and the global slot index of each name
is identical across both runs. -/
theorem compiled_set_rerun_global_slots :
    ∃ c c1 c2 c3 : Compiled,
      scriptSetRerun.Compile = .ok c ∧
      c.Run = .ok c1 ∧
      (c1.Get "a").intValue = 30 ∧
      c1.Set "b" (.intv 20) = .ok c2 ∧
      c2.Run = .ok c3 ∧
      (c3.Get "a").intValue = 40 ∧
      indexOfName c1.symbols "b" = indexOfName c.symbols "b" ∧
      indexOfName c3.symbols "b" = indexOfName c.symbols "b" ∧
      indexOfName c1.symbols "a" = indexOfName c.symbols "a" ∧
      indexOfName c3.symbols "a" = indexOfName c.symbols "a" :=
  ⟨_, _, _, _, rfl, rfl, rfl, rfl, rfl, rfl, rfl, rfl, rfl, rfl⟩

/-- C4: adding `b = 5` then `b = "foo"` before compilation rebinds `b` to
the last value; running `a := b` yields `a == "foo"` and `b == "foo"`. -/
theorem script_add_redefine_last_wins :
    ∃ c c1, scriptAddTwice.Compile = .ok c ∧ c.Run = .ok c1 ∧
      ToInterface (c1.Get "a") = .str "foo" ∧
      ToInterface (c1.Get "b") = .str "foo" ∧
      (c1.Get "a").stringValue = "foo" :=
  ⟨_, _, rfl, rfl, rfl, rfl, rfl⟩

/-- C5: after `b` is added and then removed, compiling `a := b` fails with
the undefined-identifier compile error, yielding no Bytecode. -/
theorem script_remove_undefined_error :
    (scriptBeforeRemove.Remove "b").1 = true ∧
    (scriptBeforeRemove.Remove "b").2.Compile = .error (.undefinedIdent "b") :=
  ⟨rfl, rfl⟩

/-- C6: without a loader resolving it, importing `mod1` fails with a
module-not-found compile error, as does a name an installed loader
rejects; with the loader mapping `mod1` to `foo := func() { return 5 }`,
the importing script compiles and calling the module's `foo()` yields
`a = 5`. -/
theorem user_module_loader_behaviour :
    scriptUserModule.Compile = .error (.moduleNotFound "mod1") ∧
    ((Script.New [.assign "x" (.importExpr "mod2")]).SetUserModuleLoader
        mod1Loader).Compile = .error (.moduleNotFound "mod2") ∧
    ∃ c c1, (scriptUserModule.SetUserModuleLoader mod1Loader).Compile = .ok c ∧
      c.Run = .ok c1 ∧ (c1.Get "a").intValue = 5 :=
  ⟨rfl, rfl, _, _, rfl, rfl, rfl⟩

end Tengo
